import Mathlib

/-!
Shallow embedding of the vision-assistant core (camera capture, geolocation,
live dialogue orchestration, scene-analysis loop, transport layer) together
with proofs of the specification's claims about it.

Conventions used throughout:
* JavaScript strings are Lean `String`s; `String.prototype.split`,
  `includes` and `trim` are embedded as executable char-list functions
  (`jsSplit`, `strIncludes`, `jsTrim`).
* Asynchronous platform calls (getUserMedia, getCurrentPosition, fetch,
  speech synthesis) are passed in as explicit outcome values, so every
  embedded operation is a pure state-transition function.
* React `useState`/`useRef` cells become fields of explicit state records.
* Clock values (AudioContext.currentTime, buffer durations) are rationals.
-/

namespace VisionGuide

/-- Whitespace test used by the embedded JavaScript `trim`. -/
def isWsChar (c : Char) : Bool :=
  (c == ' ') || (c == '\t') || (c == '\n') || (c == '\r')

/-- Embedded JavaScript `String.prototype.trim`: drop whitespace from both ends. -/
def jsTrim (s : String) : String :=
  String.mk (((s.toList.dropWhile isWsChar).reverse.dropWhile isWsChar).reverse)

/-- Fuel-indexed worker for the embedded JavaScript `split`: scans the input
left to right, cutting at each leftmost non-overlapping occurrence of `sep`.
The fuel is instantiated with the input length, which always suffices. -/
def splitOnFuelAux (sep : List Char) : Nat → List Char → List Char → List (List Char)
  | 0, s, acc => [acc.reverse ++ s]
  | _ + 1, [], acc => [acc.reverse]
  | f + 1, c :: rest, acc =>
    if sep.isPrefixOf (c :: rest) then
      acc.reverse :: splitOnFuelAux sep f (List.drop (sep.length - 1) rest) []
    else
      splitOnFuelAux sep f rest (c :: acc)

/-- Embedded JavaScript `String.prototype.split` with a nonempty string
separator (the source only splits on nonempty literals). -/
def jsSplit (s sep : String) : List String :=
  if sep.toList.isEmpty then [s]
  else (splitOnFuelAux sep.toList s.toList.length s.toList []).map String.mk

/-- Worker for the embedded JavaScript `includes`: does `pat` occur as a
contiguous run starting at any position of the input? -/
def strIncludesAux (pat : List Char) : List Char → Bool
  | [] => pat.isEmpty
  | c :: rest => pat.isPrefixOf (c :: rest) || strIncludesAux pat rest

/-- Embedded JavaScript `String.prototype.includes`. -/
def strIncludes (s pat : String) : Bool :=
  strIncludesAux pat.toList s.toList

/-! ## Scene-analysis loop: emergency detection (CameraVisualizer.runAnalysis) -/

/-- Extraction of the emergency type from a scene description, embedding
`sceneDescription.split("CRITICAL EMERGENCY:")[1].split(".")[0].trim()`. -/
def extractEmergencyType (s : String) : String :=
  jsTrim ((jsSplit ((jsSplit s "CRITICAL EMERGENCY:").getD 1 "") ".").getD 0 "")

/-- One evaluation of the emergency-marker check that `runAnalysis` performs on
a successful analysis result.  `hasCallback` embeds the optional
`onEmergencyTrigger` prop, `last` the `emergencyTriggeredRef` cell.  Returns
the updated ref cell and whether the emergency callback was invoked. -/
def emergencyCheckStep (hasCallback : Bool) (last : Option String)
    (sceneDescription : String) : Option String × Bool :=
  if strIncludes sceneDescription "CRITICAL EMERGENCY:" && hasCallback then
    let t := extractEmergencyType sceneDescription
    if last ≠ some t then (some t, true) else (last, false)
  else
    (none, false)

/-! ## Scene-analysis loop: failure classification and backoff
(CameraVisualizer.runAnalysis catch block) -/

/-- Normalized bounding box as returned by the structured-detection endpoint. -/
structure BoundingBox where
  yMin : ℚ
  xMin : ℚ
  yMax : ℚ
  xMax : ℚ
  deriving DecidableEq, Repr

/-- One detected object of an analysis result. -/
structure DetectedObject where
  name : String
  description : String
  boundingBox : BoundingBox
  deriving DecidableEq, Repr

/-- One detected face of an analysis result. -/
structure DetectedFace where
  boundingBox : BoundingBox
  deriving DecidableEq, Repr

/-- Structured detection result delivered by the object-description endpoint. -/
structure AnalysisResult where
  sceneDescription : String
  spatialAnalysis : String
  detectedObjects : List DetectedObject
  detectedFaces : List DetectedFace
  deriving DecidableEq, Repr

/-- Error classes distinguished by the analysis loop's catch block. -/
inductive AnalysisErrClass where
  | quota
  | timeout
  | other
  deriving DecidableEq, Repr

/-- Classification of a failure message, embedding the catch block's
`errorMsg.includes('429') || errorMsg.includes('quota') ||
errorMsg.includes('RESOURCE_EXHAUSTED')` and `errorMsg.includes('timed out')`
tests, in the source's precedence order (quota wins over timeout). -/
def classifyAnalysisError (errorMsg : String) : AnalysisErrClass :=
  if strIncludes errorMsg "429" || strIncludes errorMsg "quota" ||
      strIncludes errorMsg "RESOURCE_EXHAUSTED" then
    AnalysisErrClass.quota
  else if strIncludes errorMsg "timed out" then
    AnalysisErrClass.timeout
  else
    AnalysisErrClass.other

/-- Outcome of the analysis loop's catch block: the retained `boundingBoxes`
state, the reschedule delay in milliseconds, and the displayed error text. -/
structure FailureOutcome where
  boundingBoxes : Option AnalysisResult
  delayMs : Nat
  displayError : String
  deriving DecidableEq, Repr

/-- The catch block of `runAnalysis`: classify the error, pick the backoff
delay, choose the user-visible error text, clear the displayed boxes only on
quota exhaustion, and always reschedule with the chosen delay. -/
def analysisFailureStep (boundingBoxes : Option AnalysisResult)
    (errorMsg : String) : FailureOutcome :=
  let isQuotaError := strIncludes errorMsg "429" || strIncludes errorMsg "quota" ||
    strIncludes errorMsg "RESOURCE_EXHAUSTED"
  let isTimeout := strIncludes errorMsg "timed out"
  let delay := if isQuotaError then 60000 else if isTimeout then 10000 else 5000
  let displayError :=
    if isQuotaError then "Quota exceeded. Pausing 1 min."
    else if isTimeout then "Network timeout. Retrying..."
    else "Analysis error. Retrying..."
  { boundingBoxes := if isQuotaError then none else boundingBoxes
    delayMs := delay
    displayError := displayError }

/-! ## Tool-call dispatch (useGeminiLive.handleMessage / processToolCall) -/

/-- A function call as it arrives inside an inbound envelope; `name`, `id`
and `args` may all be absent on the wire. -/
structure FunctionCallMsg where
  name : Option String
  id : Option String
  args : Option (List (String × String))
  deriving DecidableEq, Repr

/-- A normalized tool call handed to `processToolCall`. -/
structure ToolCall where
  name : String
  id : String
  args : List (String × String)
  deriving DecidableEq, Repr

/-- The small result object every tool executor returns. -/
structure ToolResult where
  result : String
  deriving DecidableEq, Repr

/-- A tool response sent back over the transport, tagged with the original
call id and name. -/
structure ToolResponse where
  id : String
  name : String
  response : ToolResult
  deriving DecidableEq, Repr

/-- Embedded JavaScript `x || d` for an optional string (absent and empty
strings are falsy). -/
def jsOrString (x : Option String) (d : String) : String :=
  match x with
  | some s => if s = "" then d else s
  | none => d

/-- A tool executor: runs a tool call and either returns its result object or
throws (modelled as `Except.error`).  The concrete executors' own side
effects are abstracted into this function. -/
def ToolExecutor : Type := ToolCall → Except String ToolResult

/-- The try/catch of `processToolCall`: an executor exception is converted
into the generic failure result instead of propagating. -/
def processToolCallResult (exec : ToolExecutor) (call : ToolCall) : ToolResult :=
  match exec call with
  | Except.ok r => r
  | Except.error _ => { result := "Tool execution failed." }

/-- The response-sending tail of `processToolCall`: if the session handle is
still set, send one response tagged with the call's id and name; otherwise
nothing is sent. -/
def processToolCall (exec : ToolExecutor) (sessionPresent : Bool)
    (call : ToolCall) : Option ToolResponse :=
  if sessionPresent then
    some { id := call.id, name := call.name, response := processToolCallResult exec call }
  else
    none

/-- The `msg.toolCall` loop of `handleMessage`: walk the arriving function
calls in order, skip unnamed ones, normalize each named one (missing id
becomes "unknown", missing args become empty) and dispatch it sequentially,
collecting the responses sent in order. -/
def dispatchFunctionCalls (exec : ToolExecutor) (sessionPresent : Bool) :
    List FunctionCallMsg → List ToolResponse
  | [] => []
  | fc :: rest =>
    let tail := dispatchFunctionCalls exec sessionPresent rest
    match fc.name with
    | some n =>
      if n = "" then tail
      else
        let call : ToolCall := { name := n, id := jsOrString fc.id "unknown", args := fc.args.getD [] }
        match processToolCall exec sessionPresent call with
        | some resp => resp :: tail
        | none => tail
    | none => tail

/-! ## Live dialogue orchestrator state (useGeminiLive)

The React hook keeps the transcript buffers in `useState` cells and the
playback bookkeeping in `useRef` cells.  The WebSocket wrapper stores the
`onMessage` callback once at construction, so the `handleMessage` closure the
session actually runs is the one captured when `startSession` executed: the
`currentInputTranscription` / `currentOutputTranscription` values it READS
are the values of that captured render (modelled below as the explicit
`capturedInput` / `capturedOutput` parameters), while the functional
`set(prev => ...)` UPDATES it issues apply to the live state.  Ref cells
(`playingSourcesRef`, `nextStartTimeRef`, `hasAIBeenInterruptedRef`) are
always read fresh. -/

/-- The `type` discriminator of a chat message. -/
inductive MsgKind where
  | user
  | ai
  | toolCall
  deriving DecidableEq, Repr

/-- An entry of the append-only message log (timestamp and the optional
tool-call / grounding payloads are not needed by any claim and are omitted). -/
structure ChatMessage where
  kind : MsgKind
  text : String
  deriving DecidableEq, Repr

/-- The orchestrator's mutable session state. -/
structure SessionState where
  inputBuf : String
  outputBuf : String
  interrupted : Bool
  nextStartTime : ℚ
  playing : List Nat
  messages : List ChatMessage
  deriving DecidableEq, Repr

/-- Branch 1 of `handleMessage`: append a partial input transcription
(functional state update, so it lands on the live buffer). -/
def applyInputDelta (st : SessionState) (t : String) : SessionState :=
  { st with inputBuf := st.inputBuf ++ t }

/-- Branch 2 of `handleMessage`: append a partial output transcription. -/
def applyOutputDelta (st : SessionState) (t : String) : SessionState :=
  { st with outputBuf := st.outputBuf ++ t }

/-- Branch 3 of `handleMessage` (interruption): stop every scheduled source,
clear the playback set, zero the scheduling clock, set the interrupted flag,
commit the captured output buffer (if nonempty) annotated as interrupted,
and clear the output buffer. -/
def interruptedStep (st : SessionState) (capturedOutput : String) : SessionState :=
  let msgs :=
    if capturedOutput ≠ "" then
      st.messages ++ [{ kind := MsgKind.ai, text := capturedOutput ++ " (Interrupted)" }]
    else st.messages
  { st with
    playing := []
    nextStartTime := 0
    interrupted := true
    messages := msgs
    outputBuf := "" }

/-- Branch 4 of `handleMessage` (turn complete): commit the captured input
buffer as a user message and the captured output buffer as an assistant
message when nonempty, clear both live buffers, clear the interrupted flag. -/
def turnCompleteStep (st : SessionState) (capturedInput capturedOutput : String) :
    SessionState :=
  let m1 := if capturedInput ≠ "" then [{ kind := MsgKind.user, text := capturedInput }] else []
  let m2 := if capturedOutput ≠ "" then [{ kind := MsgKind.ai, text := capturedOutput }] else []
  { st with
    messages := st.messages ++ m1 ++ m2
    inputBuf := ""
    outputBuf := ""
    interrupted := false }

/-- Branch 5 of `handleMessage` (inline audio): the decoded buffer (its
duration `dur`) is scheduled at `max nextStartTime now`, the clock advances
by the duration, and the new source handle joins the playing set.  Returns
the new state and the start timestamp handed to `source.start`. -/
def scheduleAudioStep (st : SessionState) (now dur : ℚ) (handle : Nat) :
    SessionState × ℚ :=
  let start := max st.nextStartTime now
  ({ st with nextStartTime := start + dur, playing := st.playing ++ [handle] }, start)

/-- An inbound server envelope: transcription deltas, interruption and
turn-complete flags, inline audio (duration of the decoded buffer plus a
fresh source handle), and the function calls of a tool invocation. -/
structure LiveMsg where
  inputTranscription : Option String
  outputTranscription : Option String
  interrupted : Bool
  turnComplete : Bool
  audioData : Option (ℚ × Nat)
  toolCalls : List FunctionCallMsg
  deriving DecidableEq, Repr

/-- Everything one `handleMessage` invocation produces: the new session
state, the start timestamps handed to playback, and the tool responses sent. -/
structure HandleOutcome where
  state : SessionState
  scheduledStarts : List ℚ
  toolResponses : List ToolResponse
  deriving DecidableEq, Repr

/-- One invocation of the orchestrator's inbound message handler, processing
the envelope's parts in the source's order: input delta, output delta,
interruption, turn complete, inline audio, tool calls. -/
def handleMessage (exec : ToolExecutor) (sessionPresent : Bool)
    (capturedInput capturedOutput : String) (now : ℚ)
    (st : SessionState) (msg : LiveMsg) : HandleOutcome :=
  let st1 := match msg.inputTranscription with
    | some t => applyInputDelta st t
    | none => st
  let st2 := match msg.outputTranscription with
    | some t => applyOutputDelta st1 t
    | none => st1
  let st3 := if msg.interrupted then interruptedStep st2 capturedOutput else st2
  let st4 := if msg.turnComplete then turnCompleteStep st3 capturedInput capturedOutput else st3
  let audioRes := match msg.audioData with
    | some (dur, h) =>
      let sched := scheduleAudioStep st4 now dur h
      (sched.1, [sched.2])
    | none => (st4, [])
  { state := audioRes.1
    scheduledStarts := audioRes.2
    toolResponses := dispatchFunctionCalls exec sessionPresent msg.toolCalls }

/-- The orchestrator's `speakAndLog`: always append the assistant message to
the log; when `canSpeakIfAIResponding` is false and the assistant has been
interrupted or audio is still scheduled, suppress speech synthesis (log
only).  Returns the new state and whether speech synthesis was attempted
(the playback mutation of a successful synthesis is not claim-relevant and
is abstracted away). -/
def speakAndLog (st : SessionState) (text : String)
    (isError canSpeakIfAIResponding : Bool) : SessionState × Bool :=
  if !canSpeakIfAIResponding && (st.interrupted || !st.playing.isEmpty) then
    ({ st with messages := st.messages ++ [{ kind := MsgKind.ai, text := text }] }, false)
  else
    ({ st with messages := st.messages ++ [{ kind := MsgKind.ai, text := text }] }, true)

/-- The `callEmergencyServices` branch of `processToolCall`: invoke the
emergency callback (modelled by bumping the invocation counter), then speak
the confirmation through `speakAndLog` with `canSpeakIfAIResponding = false`.
Returns the new state, the new callback-invocation count, whether the
confirmation was actually spoken, and the tool result. -/
def processEmergencyCall (st : SessionState) (emergencyCount : Nat) :
    SessionState × Nat × Bool × ToolResult :=
  let count := emergencyCount + 1
  let sl := speakAndLog st "Activating Emergency Dashboard." false false
  (sl.1, count, sl.2, { result := "Emergency dashboard activated." })

/-! ## Location provider (useGeolocation.requestLocation) -/

/-- The location provider's status machine. -/
inductive GeoStatus where
  | idle
  | pending
  | granted
  | denied
  | unsupported
  deriving DecidableEq, Repr

/-- A geolocation fix. -/
structure Coordinates where
  latitude : ℚ
  longitude : ℚ
  deriving DecidableEq, Repr

/-- The hook's state: the cached fix, status, error text, the `promiseRef`
cell identifying the shared in-flight promise (if any), and a counter of
underlying `getCurrentPosition` calls issued. -/
structure GeoState where
  location : Option Coordinates
  status : GeoStatus
  error : Option String
  flight : Option Nat
  platformRequests : Nat
  deriving DecidableEq, Repr

/-- What one `requestLocation()` call hands back to its caller: either the
shared still-pending promise (identified by its flight id) or an already
resolved value. -/
inductive GeoCallResult where
  | pending (flightId : Nat)
  | immediate (fix : Option Coordinates)
  deriving DecidableEq, Repr

/-- One `requestLocation()` call.  If a request is in flight, return the
shared pending promise unchanged.  Otherwise move to `pending`, clear the
error; without platform support resolve immediately as unsupported with no
fix; with support issue exactly one underlying platform request and store
the new flight in `promiseRef`. -/
def requestLocation (st : GeoState) (supported : Bool) (freshId : Nat) :
    GeoState × GeoCallResult :=
  match st.flight with
  | some p => (st, GeoCallResult.pending p)
  | none =>
    let st1 := { st with status := GeoStatus.pending, error := none }
    if !supported then
      ({ st1 with
          status := GeoStatus.unsupported
          error := some "Geolocation is not supported by this browser." },
        GeoCallResult.immediate none)
    else
      ({ st1 with
          flight := some freshId
          platformRequests := st.platformRequests + 1 },
        GeoCallResult.pending freshId)

/-- Settlement of the in-flight platform request: both platform callbacks
resolve the shared promise (success with the fix and status granted; failure
with `null` and status denied) and the `finally` clears `promiseRef`.  The
promise is never rejected: the second component is the value every holder of
the pending promise receives. -/
def resolveGeoFlight (st : GeoState) (outcome : Except String Coordinates) :
    GeoState × Option Coordinates :=
  match outcome with
  | Except.ok loc =>
    ({ st with location := some loc, status := GeoStatus.granted, flight := none }, some loc)
  | Except.error m =>
    ({ st with status := GeoStatus.denied, error := some m, flight := none }, none)

/-- `n` back-to-back `requestLocation()` calls (the overlap of concurrent
callers before the flight settles), collecting each caller's result. -/
def requestLocationN (supported : Bool) (freshId : Nat) :
    Nat → GeoState → GeoState × List GeoCallResult
  | 0, st => (st, [])
  | n + 1, st =>
    let first := requestLocation st supported freshId
    let rest := requestLocationN supported freshId n first.1
    (rest.1, first.2 :: rest.2)

/-! ## Media capture adapter (useWebcam.enableWebcam) -/

/-- Camera facing mode. -/
inductive FacingMode where
  | user
  | environment
  deriving DecidableEq, Repr

/-- A capture stream handle: its identity, whether it is still live, and the
torch capability its track probe reports. -/
structure CamStream where
  id : Nat
  active : Bool
  torchCap : Bool
  deriving DecidableEq, Repr

/-- The webcam hook state. -/
structure CamState where
  stream : Option CamStream
  isEnabled : Bool
  facingMode : FacingMode
  hasTorch : Bool
  isTorchOn : Bool
  error : Option String
  deriving DecidableEq, Repr

/-- Hardware events `enableWebcam` emits, in order: stopping every track of
a stream, and the `getUserMedia` request (with the obtained stream id on
success, nothing on failure). -/
inductive CamEvent where
  | stopTracks (id : Nat)
  | requestStream (obtained : Option Nat)
  deriving DecidableEq, Repr

/-- Outcome of the `getUserMedia` platform call. -/
inductive GumResult where
  | ok (s : CamStream)
  | err (name : String)
  deriving DecidableEq, Repr

/-- Error classification of a failed `getUserMedia`, by the error's `name`. -/
def classifyCamError (name : String) : String :=
  if name = "NotAllowedError" then "Camera access denied. Please check permissions."
  else if name = "NotFoundError" then "No camera found."
  else "Could not access camera."

/-- The early-return guard of `enableWebcam`: already enabled, with a stream,
with the identical facing mode, and the stream still live. -/
def enableNoop (st : CamState) (mode : FacingMode) : Bool :=
  st.isEnabled &&
    (match st.stream with
      | some s => decide (st.facingMode = mode) && s.active
      | none => false)

/-- One `enableWebcam(mode)` call: no-op under the guard; otherwise stop all
tracks of any existing stream, then request a new one; on success install it
(torch capability re-probed, torch off, error cleared), on failure set the
camera inactive with a classified error.  Also returns the hardware events
in the order they occur. -/
def enableWebcam (st : CamState) (mode : FacingMode) (gum : GumResult) :
    CamState × List CamEvent :=
  if enableNoop st mode then (st, [])
  else
    let stopEvs := match st.stream with
      | some s => [CamEvent.stopTracks s.id]
      | none => []
    match gum with
    | GumResult.ok ns =>
      ({ stream := some ns
         isEnabled := true
         facingMode := mode
         hasTorch := ns.torchCap
         isTorchOn := false
         error := none },
        stopEvs ++ [CamEvent.requestStream (some ns.id)])
    | GumResult.err name =>
      ({ st with
          isEnabled := false
          stream := none
          error := some (classifyCamError name) },
        stopEvs ++ [CamEvent.requestStream none])

/-- Effect of one hardware event on the set of platform-live stream ids. -/
def applyCamEvent (live : List Nat) : CamEvent → List Nat
  | CamEvent.stopTracks i => live.filter (fun j => j ≠ i)
  | CamEvent.requestStream (some i) => live ++ [i]
  | CamEvent.requestStream none => live

/-- The platform-live streams a hook state accounts for: exactly the one it
holds, if any (every stream the hook replaces has had its tracks stopped). -/
def liveOf (st : CamState) : List Nat :=
  match st.stream with
  | some s => [s.id]
  | none => []

/-! ## Orchestrator teardown (useGeminiLive.stopSession) -/

/-- An audio context handle with its closed flag; `close` on an already
closed context yields an InvalidStateError (which the source discards, as it
never awaits the returned promise). -/
structure AudioContextH where
  closed : Bool
  deriving DecidableEq, Repr

/-- An audio node handle with its connected flag; `disconnect` never fails. -/
structure AudioNodeH where
  connected : Bool
  deriving DecidableEq, Repr

/-- The orchestrator's ref cells released by `stopSession`. -/
structure OrchRefs where
  liveSession : Option Nat
  inputSource : Option AudioNodeH
  processor : Option AudioNodeH
  audioContext : Option AudioContextH
  outputContext : Option AudioContextH
  deriving DecidableEq, Repr

/-- The orchestrator state `stopSession` touches. -/
structure OrchState where
  isListening : Bool
  isAssistantActive : Bool
  refs : OrchRefs
  deriving DecidableEq, Repr

/-- `AudioNode.disconnect()`: idempotent, never fails. -/
def disconnectNode (n : AudioNodeH) : AudioNodeH :=
  { connected := false }

/-- `AudioContext.close()`: closes an open context; on an already closed
context the returned promise rejects (the error value is discarded by the
caller). -/
def closeContext (c : AudioContextH) : AudioContextH × Except String Unit :=
  if c.closed then (c, Except.error "InvalidStateError")
  else ({ closed := true }, Except.ok ())

/-- `stopSession()`: drop the listening/active flags, close the transport if
a session handle is set, disconnect both audio nodes and close both audio
contexts if their refs are set (the refs themselves are left in place), and
clear the session handle.  Returns the new state and the transport handles
actually closed.  Total: no path raises. -/
def stopSession (st : OrchState) : OrchState × List Nat :=
  let closedTransports := match st.refs.liveSession with
    | some s => [s]
    | none => []
  ({ isListening := false
     isAssistantActive := false
     refs :=
      { liveSession := none
        inputSource := st.refs.inputSource.map disconnectNode
        processor := st.refs.processor.map disconnectNode
        audioContext := st.refs.audioContext.map (fun c => (closeContext c).1)
        outputContext := st.refs.outputContext.map (fun c => (closeContext c).1) } },
    closedTransports)

/-! ## Duplex session transport (geminiService.LiveSession) -/

/-- WebSocket ready states. -/
inductive WsReadyState where
  | connecting
  | opened
  | closing
  | closed
  deriving DecidableEq, Repr

/-- A base64 media payload with its mime type. -/
structure MediaBlob where
  data : String
  mimeType : String
  deriving DecidableEq, Repr

/-- Outbound wire envelopes of the transport. -/
inductive Envelope where
  | realtimeInput (media : MediaBlob)
  | toolResponse (functionResponses : ToolResponse)
  deriving DecidableEq, Repr

/-- The transport's observable state: the underlying socket's ready state
and the frames handed to `ws.send` (the wrapper holds no queue of its own). -/
structure LiveSessionState where
  readyState : WsReadyState
  sent : List Envelope
  deriving DecidableEq, Repr

/-- `LiveSession.sendRealtimeInput`: serialize and send only when the socket
is open; otherwise return with no effect. -/
def sendRealtimeInput (s : LiveSessionState) (input : MediaBlob) : LiveSessionState :=
  if s.readyState = WsReadyState.opened then
    { s with sent := s.sent ++ [Envelope.realtimeInput input] }
  else s

/-- `LiveSession.sendToolResponse`: serialize and send only when the socket
is open; otherwise return with no effect. -/
def sendToolResponse (s : LiveSessionState) (resp : ToolResponse) : LiveSessionState :=
  if s.readyState = WsReadyState.opened then
    { s with sent := s.sent ++ [Envelope.toolResponse resp] }
  else s

/-! ## Theorems for the specification's claims -/

/-- Normal form of one emergency check when the scene description carries the
marker and the callback is wired. -/
theorem emergencyCheckStep_marker (l : Option String) (s : String)
    (hs : strIncludes s "CRITICAL EMERGENCY:" = true) :
    emergencyCheckStep true l s =
      if l = some (extractEmergencyType s) then (l, false)
      else (some (extractEmergencyType s), true) := by
  simp only [emergencyCheckStep, hs, Bool.and_self, if_true, ne_eq, ite_not]

/-- C1: on successful analysis cycles whose scene description contains the
emergency marker, the emergency callback fires exactly when the extracted
type differs from the last-triggered type; a second message of the identical
type does not re-fire; a message of a different type fires again. -/
theorem emergency_callback_dedup (last : Option String) (d₁ d₂ : String)
    (h1 : strIncludes d₁ "CRITICAL EMERGENCY:" = true)
    (h2 : strIncludes d₂ "CRITICAL EMERGENCY:" = true) :
    ((emergencyCheckStep true last d₁).2 = true ↔ some (extractEmergencyType d₁) ≠ last)
    ∧ (emergencyCheckStep true (emergencyCheckStep true last d₁).1 d₁).2 = false
    ∧ (extractEmergencyType d₂ ≠ extractEmergencyType d₁ →
        (emergencyCheckStep true (emergencyCheckStep true last d₁).1 d₂).2 = true) := by
  have st1 : (emergencyCheckStep true last d₁).1 = some (extractEmergencyType d₁) := by
    rw [emergencyCheckStep_marker last d₁ h1]
    by_cases h : last = some (extractEmergencyType d₁) <;> simp [h]
  refine ⟨?_, ?_, ?_⟩
  · rw [emergencyCheckStep_marker last d₁ h1]
    by_cases h : last = some (extractEmergencyType d₁)
    · simp [h]
    · simp only [h, if_false]
      exact ⟨fun _ hc => h hc.symm, fun _ => trivial⟩
  · rw [st1, emergencyCheckStep_marker _ d₁ h1]
    simp
  · intro hne
    rw [st1, emergencyCheckStep_marker _ d₂ h2]
    have : some (extractEmergencyType d₁) ≠ some (extractEmergencyType d₂) := by
      simpa using fun hc => hne hc.symm
    simp [this]

/-- C1 witness: a Fire emergency fires the callback from a fresh session, an
identical Fire message does not re-fire, and a subsequent Flood message
fires again. -/
theorem emergency_callback_dedup_witness :
    (emergencyCheckStep true
      (emergencyCheckStep true none "CRITICAL EMERGENCY: Fire. Smoke rising.").1
      "CRITICAL EMERGENCY: Fire. Smoke rising.").2 = false
    ∧ (emergencyCheckStep true
        (emergencyCheckStep true none "CRITICAL EMERGENCY: Fire. Smoke rising.").1
        "CRITICAL EMERGENCY: Flood. Water rising.").2 = true := by
  have h := emergency_callback_dedup none "CRITICAL EMERGENCY: Fire. Smoke rising."
    "CRITICAL EMERGENCY: Flood. Water rising." (by decide) (by decide)
  exact ⟨h.2.1, h.2.2 (by decide)⟩

/-- C8: every failing analysis cycle is classified and rescheduled: quota
errors back off 60s and clear the displayed boxes, timeouts back off 10s
keeping them, any other error backs off 5s keeping them, and every path
produces a positive reschedule delay. -/
theorem analysis_backoff_classified (boxes : Option AnalysisResult) (e : String) :
    (classifyAnalysisError e = AnalysisErrClass.quota →
      (analysisFailureStep boxes e).delayMs = 60000
      ∧ (analysisFailureStep boxes e).boundingBoxes = none)
    ∧ (classifyAnalysisError e = AnalysisErrClass.timeout →
      (analysisFailureStep boxes e).delayMs = 10000
      ∧ (analysisFailureStep boxes e).boundingBoxes = boxes)
    ∧ (classifyAnalysisError e = AnalysisErrClass.other →
      (analysisFailureStep boxes e).delayMs = 5000
      ∧ (analysisFailureStep boxes e).boundingBoxes = boxes)
    ∧ 0 < (analysisFailureStep boxes e).delayMs := by
  unfold classifyAnalysisError analysisFailureStep
  by_cases hq : (strIncludes e "429" || strIncludes e "quota" ||
      strIncludes e "RESOURCE_EXHAUSTED") = true
  · simp [hq]
  · by_cases ht : strIncludes e "timed out" = true
    · simp [hq, ht]
    · simp [hq, ht]

/-- C8 witness: a quota error backs off 60000ms and clears the boxes, a
timeout backs off 10000ms keeping them, a parse failure backs off 5000ms
keeping them. -/
theorem analysis_backoff_classified_witness :
    (analysisFailureStep
        (some { sceneDescription := "A desk", spatialAnalysis := "",
                detectedObjects := [], detectedFaces := [] })
        "Error: 429 RESOURCE_EXHAUSTED").delayMs = 60000
    ∧ (analysisFailureStep
        (some { sceneDescription := "A desk", spatialAnalysis := "",
                detectedObjects := [], detectedFaces := [] })
        "Error: 429 RESOURCE_EXHAUSTED").boundingBoxes = none
    ∧ (analysisFailureStep
        (some { sceneDescription := "A desk", spatialAnalysis := "",
                detectedObjects := [], detectedFaces := [] })
        "Error: request timed out").delayMs = 10000
    ∧ (analysisFailureStep
        (some { sceneDescription := "A desk", spatialAnalysis := "",
                detectedObjects := [], detectedFaces := [] })
        "Error: request timed out").boundingBoxes =
        some { sceneDescription := "A desk", spatialAnalysis := "",
               detectedObjects := [], detectedFaces := [] }
    ∧ (analysisFailureStep
        (some { sceneDescription := "A desk", spatialAnalysis := "",
                detectedObjects := [], detectedFaces := [] })
        "SyntaxError: unexpected token").delayMs = 5000 := by
  refine ⟨?_, ?_, ?_, ?_, ?_⟩
  · exact ((analysis_backoff_classified _ _).1 (by decide)).1
  · exact ((analysis_backoff_classified _ _).1 (by decide)).2
  · exact ((analysis_backoff_classified _ _).2.1 (by decide)).1
  · exact ((analysis_backoff_classified _ _).2.1 (by decide)).2
  · exact ((analysis_backoff_classified _ _).2.2.1 (by decide)).1

/-- C10: a transport send issued while the socket is not open is silently
discarded: the transport state (including the list of frames handed to the
wire) is unchanged, nothing is queued anywhere, and the call returns. -/
theorem transport_send_dropped_when_not_open (s : LiveSessionState)
    (input : MediaBlob) (resp : ToolResponse)
    (h : s.readyState ≠ WsReadyState.opened) :
    sendRealtimeInput s input = s ∧ sendToolResponse s resp = s := by
  constructor <;> simp [sendRealtimeInput, sendToolResponse, h]

/-- C10 witness: an audio chunk and a tool response sent on a still
connecting socket leave the transport state untouched. -/
theorem transport_send_dropped_when_not_open_witness :
    sendRealtimeInput { readyState := WsReadyState.connecting, sent := [] }
      { data := "AAAA", mimeType := "audio/pcm;rate=16000" } =
      { readyState := WsReadyState.connecting, sent := [] }
    ∧ sendToolResponse { readyState := WsReadyState.connecting, sent := [] }
      { id := "call-1", name := "webSearch", response := { result := "ok" } } =
      { readyState := WsReadyState.connecting, sent := [] } :=
  transport_send_dropped_when_not_open _ _ _ (by decide)

/-- Normal form of dispatching a named function call at the head of the
arrival list, in a live session. -/
theorem dispatch_cons_named (exec : ToolExecutor) (fc : FunctionCallMsg)
    (rest : List FunctionCallMsg) (n : String)
    (hn : fc.name = some n) (hne : n ≠ "") :
    dispatchFunctionCalls exec true (fc :: rest) =
      { id := jsOrString fc.id "unknown", name := n
        response := processToolCallResult exec
          { name := n, id := jsOrString fc.id "unknown", args := fc.args.getD [] } }
      :: dispatchFunctionCalls exec true rest := by
  simp [dispatchFunctionCalls, hn, hne, processToolCall]

/-- C2: for an envelope carrying named function calls (with ids), dispatch is
sequential in arrival order and sends exactly one tool response per call,
tagged with the original id and name, in the same order — and with an
executor that throws on every call, every response is still sent, carrying
the generic failure result. -/
theorem tool_dispatch_order (exec : ToolExecutor) (calls : List FunctionCallMsg)
    (hnamed : ∀ fc ∈ calls, ∃ n, fc.name = some n ∧ n ≠ "")
    (hid : ∀ fc ∈ calls, ∃ i, fc.id = some i ∧ i ≠ "") :
    (dispatchFunctionCalls exec true calls).length = calls.length
    ∧ (dispatchFunctionCalls exec true calls).map (fun r => (r.id, r.name)) =
        calls.map (fun fc => (fc.id.getD "", fc.name.getD ""))
    ∧ ∀ e, (dispatchFunctionCalls (fun _ => Except.error e) true calls).map
        (fun r => r.response) =
        calls.map (fun _ => ({ result := "Tool execution failed." } : ToolResult)) := by
  revert hnamed hid
  induction calls with
  | nil =>
    intro _ _
    exact ⟨rfl, rfl, fun _ => rfl⟩
  | cons fc rest ih =>
    intro hnamed hid
    obtain ⟨n, hn, hne⟩ := hnamed fc (List.mem_cons_self fc rest)
    obtain ⟨i, hi, hie⟩ := hid fc (List.mem_cons_self fc rest)
    obtain ⟨ihL, ihM, ihE⟩ := ih (fun g hg => hnamed g (List.mem_cons_of_mem _ hg))
      (fun g hg => hid g (List.mem_cons_of_mem _ hg))
    have hjs : jsOrString fc.id "unknown" = i := by
      simp [jsOrString, hi, hie]
    refine ⟨?_, ?_, ?_⟩
    · rw [dispatch_cons_named exec fc rest n hn hne]
      simp [ihL]
    · rw [dispatch_cons_named exec fc rest n hn hne]
      simp [ihM, hn, hi, jsOrString, hie]
    · intro e
      rw [dispatch_cons_named (fun _ => Except.error e) fc rest n hn hne]
      simp [ihE e, processToolCallResult]

/-- C2 witness: two named calls, the second one's executor throwing, still
produce exactly two responses tagged in arrival order. -/
theorem tool_dispatch_order_witness :
    (dispatchFunctionCalls
      (fun c => if c.name = "webSearch" then Except.ok { result := "Opened search." }
                else Except.error "boom")
      true
      [{ name := some "webSearch", id := some "c1", args := some [("query", "cats")] },
       { name := some "findNearbyPlaces", id := some "c2", args := none }]).length = 2
    ∧ (dispatchFunctionCalls
      (fun c => if c.name = "webSearch" then Except.ok { result := "Opened search." }
                else Except.error "boom")
      true
      [{ name := some "webSearch", id := some "c1", args := some [("query", "cats")] },
       { name := some "findNearbyPlaces", id := some "c2", args := none }]).map
        (fun r => (r.id, r.name)) =
      [("c1", "webSearch"), ("c2", "findNearbyPlaces")] := by
  have hnamed : ∀ fc ∈ ([{ name := some "webSearch", id := some "c1", args := some [("query", "cats")] },
      { name := some "findNearbyPlaces", id := some "c2", args := none }] : List FunctionCallMsg),
      ∃ n, fc.name = some n ∧ n ≠ "" := by
    intro fc hfc
    simp only [List.mem_cons, List.not_mem_nil, or_false] at hfc
    rcases hfc with h | h <;> subst h
    · exact ⟨"webSearch", rfl, by decide⟩
    · exact ⟨"findNearbyPlaces", rfl, by decide⟩
  have hid : ∀ fc ∈ ([{ name := some "webSearch", id := some "c1", args := some [("query", "cats")] },
      { name := some "findNearbyPlaces", id := some "c2", args := none }] : List FunctionCallMsg),
      ∃ i, fc.id = some i ∧ i ≠ "" := by
    intro fc hfc
    simp only [List.mem_cons, List.not_mem_nil, or_false] at hfc
    rcases hfc with h | h <;> subst h
    · exact ⟨"c1", rfl, by decide⟩
    · exact ⟨"c2", rfl, by decide⟩
  have h := tool_dispatch_order
    (fun c => if c.name = "webSearch" then Except.ok { result := "Opened search." }
              else Except.error "boom")
    [{ name := some "webSearch", id := some "c1", args := some [("query", "cats")] },
     { name := some "findNearbyPlaces", id := some "c2", args := none }]
    hnamed hid
  exact ⟨h.1.trans (by decide), h.2.1.trans (by decide)⟩

/-- A `requestLocation()` call made while a request is in flight returns the
shared pending promise and leaves the provider state untouched. -/
theorem requestLocation_inflight (st : GeoState) (supported : Bool)
    (freshId p : Nat) (h : st.flight = some p) :
    requestLocation st supported freshId = (st, GeoCallResult.pending p) := by
  simp [requestLocation, h]

/-- Any number of `requestLocation()` calls made while a request is in flight
all return the same shared pending promise and never touch the state. -/
theorem requestLocationN_inflight (supported : Bool) (freshId p : Nat) :
    ∀ (k : Nat) (st : GeoState), st.flight = some p →
    requestLocationN supported freshId k st =
      (st, List.replicate k (GeoCallResult.pending p)) := by
  intro k
  induction k with
  | zero => intro st _; rfl
  | succ m ih =>
    intro st h
    simp [requestLocationN, requestLocation_inflight st supported freshId p h, ih st h,
      List.replicate_succ]

/-- C5: n overlapping `requestFix()` calls from a free state issue exactly
one underlying platform request, every caller receives the same pending
promise; on a platform without geolocation the call resolves immediately
with no fix and status unsupported, issuing no platform request; and the
shared flight always settles with either a fix (status granted) or null
(status denied) — it is resolved, never rejected, on both platform
outcomes. -/
theorem requestFix_single_flight (st : GeoState) (freshId : Nat) (n : Nat)
    (hfree : st.flight = none) (hn : 0 < n) :
    ((requestLocationN true freshId n st).1.platformRequests = st.platformRequests + 1
      ∧ (requestLocationN true freshId n st).2 =
          List.replicate n (GeoCallResult.pending freshId)
      ∧ (requestLocationN true freshId n st).1.flight = some freshId)
    ∧ (∀ st2 : GeoState, st2.flight = none →
        (requestLocation st2 false freshId).1.status = GeoStatus.unsupported
        ∧ (requestLocation st2 false freshId).2 = GeoCallResult.immediate none
        ∧ (requestLocation st2 false freshId).1.platformRequests = st2.platformRequests)
    ∧ (∀ (st3 : GeoState) (outcome : Except String Coordinates),
        (∃ loc, outcome = Except.ok loc
          ∧ (resolveGeoFlight st3 outcome).2 = some loc
          ∧ (resolveGeoFlight st3 outcome).1.status = GeoStatus.granted)
        ∨ (∃ m, outcome = Except.error m
          ∧ (resolveGeoFlight st3 outcome).2 = none
          ∧ (resolveGeoFlight st3 outcome).1.status = GeoStatus.denied)) := by
  refine ⟨?_, ?_, ?_⟩
  · obtain ⟨m, rfl⟩ : ∃ m, n = m + 1 := ⟨n - 1, (Nat.succ_pred_eq_of_pos hn).symm⟩
    have hstep :
        requestLocation st true freshId =
          ({ st with
              status := GeoStatus.pending
              error := none
              flight := some freshId
              platformRequests := st.platformRequests + 1 },
            GeoCallResult.pending freshId) := by
      simp [requestLocation, hfree]
    have htail := requestLocationN_inflight true freshId freshId m
      { st with
        status := GeoStatus.pending
        error := none
        flight := some freshId
        platformRequests := st.platformRequests + 1 } rfl
    simp [requestLocationN, hstep, htail, List.replicate_succ]
  · intro st2 h2
    refine ⟨?_, ?_, ?_⟩ <;> simp [requestLocation, h2]
  · intro st3 outcome
    cases outcome with
    | ok loc => exact Or.inl ⟨loc, rfl, rfl, rfl⟩
    | error m => exact Or.inr ⟨m, rfl, rfl, rfl⟩

/-- C5 witness: three overlapping calls from the initial state issue one
platform request and all three callers share the pending promise; an
unsupported platform yields an immediate null with status unsupported. -/
theorem requestFix_single_flight_witness :
    (requestLocationN true 7 3
      { location := none, status := GeoStatus.idle, error := none,
        flight := none, platformRequests := 0 }).1.platformRequests = 1
    ∧ (requestLocationN true 7 3
      { location := none, status := GeoStatus.idle, error := none,
        flight := none, platformRequests := 0 }).2 =
      List.replicate 3 (GeoCallResult.pending 7)
    ∧ (requestLocation
      { location := none, status := GeoStatus.idle, error := none,
        flight := none, platformRequests := 0 } false 7).2 =
      GeoCallResult.immediate none := by
  have h := requestFix_single_flight
    { location := none, status := GeoStatus.idle, error := none,
      flight := none, platformRequests := 0 } 7 3 rfl (by decide)
  exact ⟨h.1.1, h.1.2.1, (h.2.1 _ rfl).2.1⟩

/-- C6: an `enable(mode)` call while already active with the identical mode
and a live stream is a no-op (no state change, no hardware event); otherwise
the existing stream's tracks are stopped first, before the new stream is
requested; and along every prefix of the emitted hardware events at most one
capture stream is platform-live. -/
theorem enable_single_stream (st : CamState) (mode : FacingMode) (gum : GumResult) :
    (enableNoop st mode = true → enableWebcam st mode gum = (st, []))
    ∧ (∀ s, st.stream = some s → enableNoop st mode = false →
        ∃ rest, (enableWebcam st mode gum).2 = CamEvent.stopTracks s.id :: rest)
    ∧ (∀ k, (((enableWebcam st mode gum).2.take k).foldl applyCamEvent (liveOf st)).length ≤ 1) := by
  refine ⟨?_, ?_, ?_⟩
  · intro h
    simp [enableWebcam, h]
  · intro s hs h
    cases gum with
    | ok ns =>
      exact ⟨[CamEvent.requestStream (some ns.id)], by simp [enableWebcam, h, hs]⟩
    | err name =>
      exact ⟨[CamEvent.requestStream none], by simp [enableWebcam, h, hs]⟩
  · intro k
    by_cases h : enableNoop st mode = true
    · cases hs : st.stream <;> simp [enableWebcam, h, liveOf, hs]
    · have h2 : enableNoop st mode = false := by
        simpa using h
      cases hs : st.stream with
      | none =>
        cases gum with
        | ok ns =>
          match k with
          | 0 => simp [enableWebcam, h2, hs, liveOf]
          | Nat.succ k1 => simp [enableWebcam, h2, hs, liveOf, applyCamEvent, List.take]
        | err name =>
          match k with
          | 0 => simp [enableWebcam, h2, hs, liveOf]
          | Nat.succ k1 => simp [enableWebcam, h2, hs, liveOf, applyCamEvent, List.take]
      | some s =>
        cases gum with
        | ok ns =>
          match k with
          | 0 => simp [enableWebcam, h2, hs, liveOf]
          | 1 => simp [enableWebcam, h2, hs, liveOf, applyCamEvent, List.take]
          | Nat.succ (Nat.succ k2) =>
            simp [enableWebcam, h2, hs, liveOf, applyCamEvent, List.take]
        | err name =>
          match k with
          | 0 => simp [enableWebcam, h2, hs, liveOf]
          | 1 => simp [enableWebcam, h2, hs, liveOf, applyCamEvent, List.take]
          | Nat.succ (Nat.succ k2) =>
            simp [enableWebcam, h2, hs, liveOf, applyCamEvent, List.take]

/-- C6 witness: a repeated enable with the identical live mode is a no-op;
switching modes stops the old stream's tracks first and never has two
platform-live streams. -/
theorem enable_single_stream_witness :
    enableWebcam
      { stream := some { id := 5, active := true, torchCap := false },
        isEnabled := true, facingMode := FacingMode.user,
        hasTorch := false, isTorchOn := false, error := none }
      FacingMode.user (GumResult.ok { id := 6, active := true, torchCap := true }) =
      ({ stream := some { id := 5, active := true, torchCap := false },
         isEnabled := true, facingMode := FacingMode.user,
         hasTorch := false, isTorchOn := false, error := none }, [])
    ∧ (∃ rest, (enableWebcam
        { stream := some { id := 5, active := true, torchCap := false },
          isEnabled := true, facingMode := FacingMode.user,
          hasTorch := false, isTorchOn := false, error := none }
        FacingMode.environment
        (GumResult.ok { id := 6, active := true, torchCap := true })).2 =
        CamEvent.stopTracks 5 :: rest)
    ∧ (((enableWebcam
        { stream := some { id := 5, active := true, torchCap := false },
          isEnabled := true, facingMode := FacingMode.user,
          hasTorch := false, isTorchOn := false, error := none }
        FacingMode.environment
        (GumResult.ok { id := 6, active := true, torchCap := true })).2.take 2).foldl
          applyCamEvent
          (liveOf
            { stream := some { id := 5, active := true, torchCap := false },
              isEnabled := true, facingMode := FacingMode.user,
              hasTorch := false, isTorchOn := false, error := none })).length ≤ 1 := by
  refine ⟨?_, ?_, ?_⟩
  · exact (enable_single_stream _ FacingMode.user _).1 (by decide)
  · exact (enable_single_stream _ FacingMode.environment _).2.1
      { id := 5, active := true, torchCap := false } rfl (by decide)
  · exact (enable_single_stream _ FacingMode.environment _).2.2 2

/-- C3 counterexample: handling an interruption at playback-clock time 1
leaves the scheduling clock at 0, not at the current time — the handler
resets the clock to zero unconditionally. -/
theorem interruption_clock_zero_counterexample :
    (handleMessage (fun _ => Except.ok { result := "" }) true "" "Hello" 1
      { inputBuf := "", outputBuf := "Hello", interrupted := false,
        nextStartTime := 7, playing := [1, 2], messages := [] }
      { inputTranscription := none, outputTranscription := none, interrupted := true,
        turnComplete := false, audioData := none, toolCalls := [] }).state.nextStartTime = 0
    ∧ (0 : ℚ) ≠ 1 := by
  refine ⟨rfl, by norm_num⟩

/-- C3 (amended): handling an interruption empties the playback queue, resets
the scheduling clock to zero and marks the interrupted flag; and every start
timestamp a message handler hands to playback is at least the playback-clock
time at the moment of scheduling (the handler schedules at
`max nextStartTime now`). -/
theorem interruption_reset_and_schedule (exec : ToolExecutor) (sessionPresent : Bool)
    (capturedInput capturedOutput : String) (now : ℚ) (st : SessionState) (msg : LiveMsg) :
    (∀ s ∈ (handleMessage exec sessionPresent capturedInput capturedOutput now st
        msg).scheduledStarts, now ≤ s)
    ∧ (interruptedStep st capturedOutput).playing = []
    ∧ (interruptedStep st capturedOutput).nextStartTime = 0
    ∧ (interruptedStep st capturedOutput).interrupted = true := by
  refine ⟨?_, rfl, rfl, rfl⟩
  intro s hsmem
  cases haud : msg.audioData with
  | none => simp [handleMessage, haud] at hsmem
  | some p =>
    simp [handleMessage, haud, scheduleAudioStep] at hsmem
    rw [hsmem]
    exact le_max_right _ _

/-- C3 witness for the amended claim: with the clock just cleared by an
interruption, an audio segment arriving at playback time 1 is scheduled at
`max 0 1`, which is not in the past. -/
theorem interruption_reset_and_schedule_witness :
    (1 : ℚ) ≤ max (0 : ℚ) 1
    ∧ (interruptedStep
        { inputBuf := "", outputBuf := "Hi", interrupted := false,
          nextStartTime := 7, playing := [3], messages := [] } "Hi").playing = [] := by
  have h := interruption_reset_and_schedule (fun _ => Except.ok { result := "" }) true "" "" 1
    { inputBuf := "", outputBuf := "", interrupted := false,
      nextStartTime := 0, playing := [], messages := [] }
    { inputTranscription := none, outputTranscription := none, interrupted := true,
      turnComplete := false, audioData := some (2, 9), toolCalls := [] }
  refine ⟨h.1 (max (0 : ℚ) 1) ?_, ?_⟩
  · simp [handleMessage, interruptedStep, scheduleAudioStep]
  · exact (interruption_reset_and_schedule (fun _ => Except.ok { result := "" }) true "" "Hi" 1
      { inputBuf := "", outputBuf := "Hi", interrupted := false,
        nextStartTime := 7, playing := [3], messages := [] }
      { inputTranscription := none, outputTranscription := none, interrupted := false,
        turnComplete := false, audioData := none, toolCalls := [] }).2.1

/-- C4: what the code actually does on turn-complete.  The socket stores the
message callback once, at session start, so the commit branches read the
transcription values captured by that closure — the empty session-start
values — not the live buffers.  Hence a turn-complete appends no log entry
at all, whatever the live buffers hold, while still clearing them. -/
theorem turn_complete_stale_commit (exec : ToolExecutor) (sessionPresent : Bool)
    (now : ℚ) (st : SessionState) :
    (handleMessage exec sessionPresent "" "" now st
      { inputTranscription := none, outputTranscription := none, interrupted := false,
        turnComplete := true, audioData := none, toolCalls := [] }).state.messages = st.messages
    ∧ (handleMessage exec sessionPresent "" "" now st
      { inputTranscription := none, outputTranscription := none, interrupted := false,
        turnComplete := true, audioData := none, toolCalls := [] }).state.inputBuf = ""
    ∧ (handleMessage exec sessionPresent "" "" now st
      { inputTranscription := none, outputTranscription := none, interrupted := false,
        turnComplete := true, audioData := none, toolCalls := [] }).state.outputBuf = ""
    ∧ (handleMessage exec sessionPresent "" "" now st
      { inputTranscription := none, outputTranscription := none, interrupted := false,
        turnComplete := true, audioData := none, toolCalls := [] }).state.interrupted = false := by
  refine ⟨?_, rfl, rfl, rfl⟩
  simp [handleMessage, turnCompleteStep]

/-- C7 counterexample: after the assistant has been interrupted, the
emergency tool's verbal confirmation is suppressed (logged only, not
spoken) — the call opts into the mid-speech suppression instead of
bypassing it. -/
theorem emergency_confirmation_suppressed_counterexample :
    (processEmergencyCall
      { inputBuf := "", outputBuf := "", interrupted := true, nextStartTime := 0,
        playing := [], messages := [] } 0).2.2.1 = false := by
  rfl

/-- C7 (amended): every dispatch of the emergency tool invokes the emergency
callback immediately and unconditionally (exactly once) and always logs the
confirmation message; the confirmation is spoken exactly when the assistant
is not mid-speech — speech is suppressed when the interrupted flag is set or
audio is still scheduled. -/
theorem emergency_call_unconditional (st : SessionState) (ec : Nat) :
    (processEmergencyCall st ec).2.1 = ec + 1
    ∧ (processEmergencyCall st ec).1.messages =
        st.messages ++ [{ kind := MsgKind.ai, text := "Activating Emergency Dashboard." }]
    ∧ ((processEmergencyCall st ec).2.2.1 = false ↔
        (st.interrupted = true ∨ st.playing ≠ [])) := by
  unfold processEmergencyCall speakAndLog
  by_cases hc : (st.interrupted || !st.playing.isEmpty) = true
  · refine ⟨by simp [hc], by simp [hc], ?_⟩
    simp only [hc, Bool.not_false, Bool.true_and, if_true]
    constructor
    · intro _
      rcases Bool.or_eq_true_iff.mp hc with h | h
      · exact Or.inl h
      · refine Or.inr ?_
        have : st.playing.isEmpty = false := by
          simpa using h
        simpa [List.isEmpty_iff] using this
    · intro _
      trivial
  · have hc2 : (st.interrupted || !st.playing.isEmpty) = false := by
      simpa using hc
    refine ⟨by simp [hc2], by simp [hc2], ?_⟩
    simp only [hc2, Bool.not_false, Bool.true_and, if_false]
    constructor
    · intro hfalse
      cases hfalse
    · intro hor
      rcases Bool.or_eq_false_iff.mp hc2 with ⟨h1, h2⟩
      rcases hor with h | h
      · rw [h1] at h
        cases h
      · have : st.playing.isEmpty = true := by
          simpa using h2
        exact absurd (List.isEmpty_iff.mp this) h

/-- C9: `stopSession` drops the listening and active flags, clears the
session handle, disconnects both audio nodes and closes both audio contexts
(their refs stay populated, as in the source); a second call from the
resulting state is a state-level no-op that closes no transport — calling
it with no session active raises no error and changes nothing. -/
theorem stopSession_idle_and_idempotent (st : OrchState) :
    ((stopSession st).1.isListening = false
      ∧ (stopSession st).1.isAssistantActive = false
      ∧ (stopSession st).1.refs.liveSession = none)
    ∧ (∀ c, (stopSession st).1.refs.audioContext = some c → c.closed = true)
    ∧ (∀ c, (stopSession st).1.refs.outputContext = some c → c.closed = true)
    ∧ (∀ nd, (stopSession st).1.refs.inputSource = some nd → nd.connected = false)
    ∧ (∀ nd, (stopSession st).1.refs.processor = some nd → nd.connected = false)
    ∧ stopSession (stopSession st).1 = ((stopSession st).1, []) := by
  have hclose : ∀ c : AudioContextH, ((closeContext c).1).closed = true := by
    intro c
    by_cases h : c.closed <;> simp [closeContext, h]
  have hclose2 : ∀ c : AudioContextH, (closeContext (closeContext c).1).1 = (closeContext c).1 := by
    intro c
    by_cases h : c.closed <;> simp [closeContext, h]
  refine ⟨⟨rfl, rfl, rfl⟩, ?_, ?_, ?_, ?_, ?_⟩
  · intro c hc
    cases hctx : st.refs.audioContext with
    | none => simp [stopSession, hctx] at hc
    | some c0 =>
      simp only [stopSession, hctx, Option.map_some'] at hc
      simp only [Option.some.injEq] at hc
      rw [← hc]
      exact hclose c0
  · intro c hc
    cases hctx : st.refs.outputContext with
    | none => simp [stopSession, hctx] at hc
    | some c0 =>
      simp only [stopSession, hctx, Option.map_some'] at hc
      simp only [Option.some.injEq] at hc
      rw [← hc]
      exact hclose c0
  · intro nd hnd
    cases hn : st.refs.inputSource with
    | none => simp [stopSession, hn] at hnd
    | some n0 =>
      simp only [stopSession, hn, Option.map_some'] at hnd
      simp only [Option.some.injEq] at hnd
      rw [← hnd]
      rfl
  · intro nd hnd
    cases hn : st.refs.processor with
    | none => simp [stopSession, hn] at hnd
    | some n0 =>
      simp only [stopSession, hn, Option.map_some'] at hnd
      simp only [Option.some.injEq] at hnd
      rw [← hnd]
      rfl
  · have hd : ∀ o : Option AudioNodeH,
        (o.map disconnectNode).map disconnectNode = o.map disconnectNode := by
      intro o
      cases o <;> rfl
    have hcc : ∀ o : Option AudioContextH,
        (o.map fun c => (closeContext c).1).map (fun c => (closeContext c).1) =
          o.map fun c => (closeContext c).1 := by
      intro o
      cases o with
      | none => rfl
      | some c => simp [hclose2 c]
    simp [stopSession, hd, hcc]

/-- C9 witness: stopping a fully active session and stopping it again — the
second call changes nothing and closes no transport, and the audio context
left in the ref is closed. -/
theorem stopSession_idle_and_idempotent_witness :
    stopSession
      (stopSession
        { isListening := true, isAssistantActive := true,
          refs := { liveSession := some 1, inputSource := some { connected := true },
                    processor := some { connected := true },
                    audioContext := some { closed := false },
                    outputContext := some { closed := false } } }).1 =
      ((stopSession
        { isListening := true, isAssistantActive := true,
          refs := { liveSession := some 1, inputSource := some { connected := true },
                    processor := some { connected := true },
                    audioContext := some { closed := false },
                    outputContext := some { closed := false } } }).1, [])
    ∧ ({ closed := true } : AudioContextH).closed = true := by
  have h := stopSession_idle_and_idempotent
    { isListening := true, isAssistantActive := true,
      refs := { liveSession := some 1, inputSource := some { connected := true },
                processor := some { connected := true },
                audioContext := some { closed := false },
                outputContext := some { closed := false } } }
  exact ⟨h.2.2.2.2.2, h.2.1 { closed := true } rfl⟩

end VisionGuide
